import Mathlib

/-!
Verification of the object-storage abstraction layer
(`image_handler_commons/storage.py`).

Shallow embedding:
* Python byte payloads (`BytesIO`) become `List Nat` (bytes, each `< 256`).
* The 16 random bytes drawn by `secrets.token_hex(16)` inside
  `generate_object_key` become an explicit `token : List Nat` parameter.
* Exceptions become an `Except` result.  `StorageError` and the builtin
  `FileNotFoundError` raised by `_get_object_sync` are the two error kinds the
  module itself produces; exceptions that the module does not catch propagate
  and are modelled by `StorageExc.otherExc`.
* The boto3 S3 client is an external collaborator: each client call is
  modelled by an explicit outcome parameter saying how the call ended
  (success, `NoSuchKey`, a `ClientError` with a message, or an exception
  outside the client's `ClientError` class).  The behaviour of the remote S3
  service itself (what outcomes a healthy store produces) is modelled from
  the spec, since boto3 is not part of this repository.
* `async`/`await` and `asyncio.to_thread` sequence the calls; the embedding
  keeps exactly that sequencing, made observable through an event trace.
-/

namespace ImageHandlerCommons

/-- The error kinds observable by a caller of the storage layer:
`StorageError(msg)` and `FileNotFoundError` are raised by the module itself,
`otherExc msg` stands for any exception the module lets propagate unchanged. -/
inductive StorageExc where
  | storageError (msg : String)
  | notFound
  | otherExc (msg : String)
deriving DecidableEq, Repr

/-- Holds exactly for the `StorageError` kind. -/
def isStorageError : StorageExc → Bool
  | StorageExc.storageError _ => true
  | _ => false

/-- Holds when an `Except` result is the raised `FileNotFoundError`
(the spec's `NotFound`). -/
def notFoundResult {α : Type} : Except StorageExc α → Bool
  | Except.error StorageExc.notFound => true
  | _ => false

/-- Holds when an `Except` result is a success. -/
def resultOk {α : Type} : Except StorageExc α → Bool
  | Except.ok _ => true
  | _ => false

/-- One hexadecimal digit, lowercase, as produced by Python's hex encoding:
`0`–`9` for values below ten, `a`–`f` for ten to fifteen. -/
def hexDigit (n : Nat) : Char :=
  if n < 10 then Char.ofNat (48 + n) else Char.ofNat (87 + n)

/-- The two lowercase hex characters encoding one byte. -/
def byteHex (b : Nat) : List Char :=
  [hexDigit (b / 16), hexDigit (b % 16)]

/-- Embedding of `secrets.token_hex` applied to the given random bytes: each byte becomes
two lowercase hex characters. -/
def token_hex (bytes : List Nat) : String :=
  String.mk ((bytes.map byteHex).flatten)

/-- Embedding of `BaseStorageBackend.generate_object_key`:
`secrets.token_hex(16) + '-' + filename`, with the 16 random bytes passed
explicitly as `token`. -/
def generate_object_key (token : List Nat) (filename : String) : String :=
  token_hex token ++ "-" ++ filename

/-- A character of the lowercase hexadecimal alphabet `[0-9a-f]`. -/
def isLowerHexChar (c : Char) : Bool :=
  (('0' ≤ c) && (c ≤ '9')) || (('a' ≤ c) && (c ≤ 'f'))

theorem hexDigit_lower : ∀ n, n < 16 → isLowerHexChar (hexDigit n) = true := by decide

theorem byteHex_lower (b : Nat) (hb : b < 256) :
    ∀ c ∈ byteHex b, isLowerHexChar c = true := by
  have h1 : b / 16 < 16 := Nat.div_lt_of_lt_mul (by omega)
  have h2 : b % 16 < 16 := Nat.mod_lt _ (by omega)
  intro c hc
  simp only [byteHex, List.mem_cons, List.mem_singleton] at hc
  rcases hc with rfl | rfl | h
  · exact hexDigit_lower _ h1
  · exact hexDigit_lower _ h2
  · cases h

theorem hexDigit_inj : ∀ m, m < 16 → ∀ n, n < 16 → hexDigit m = hexDigit n → m = n := by
  decide

theorem byteHex_inj (a b : Nat) (ha : a < 256) (hb : b < 256)
    (h : byteHex a = byteHex b) : a = b := by
  have ha1 : a / 16 < 16 := Nat.div_lt_of_lt_mul (by omega)
  have ha2 : a % 16 < 16 := Nat.mod_lt _ (by omega)
  have hb1 : b / 16 < 16 := Nat.div_lt_of_lt_mul (by omega)
  have hb2 : b % 16 < 16 := Nat.mod_lt _ (by omega)
  simp only [byteHex, List.cons.injEq, and_true] at h
  have e1 : a / 16 = b / 16 := hexDigit_inj _ ha1 _ hb1 h.1
  have e2 : a % 16 = b % 16 := hexDigit_inj _ ha2 _ hb2 h.2
  omega

theorem flatten_byteHex_length (t : List Nat) :
    ((t.map byteHex).flatten).length = 2 * t.length := by
  induction t with
  | nil => rfl
  | cons a t ih =>
      simp only [List.map_cons, List.flatten_cons, List.length_append, ih, byteHex,
        List.length_cons, List.length_nil]
      omega

theorem flatten_byteHex_lower (t : List Nat) (h : ∀ b ∈ t, b < 256) :
    ∀ c ∈ (t.map byteHex).flatten, isLowerHexChar c = true := by
  induction t with
  | nil => intro c hc; cases hc
  | cons a t ih =>
      intro c hc
      simp only [List.map_cons, List.flatten_cons, List.mem_append] at hc
      rcases hc with hc | hc
      · exact byteHex_lower a (h a (List.mem_cons_self _ _)) c hc
      · exact ih (fun b hb => h b (List.mem_cons_of_mem _ hb)) c hc

theorem flatten_byteHex_inj :
    ∀ t1 t2 : List Nat, (∀ b ∈ t1, b < 256) → (∀ b ∈ t2, b < 256) →
      t1.length = t2.length →
      (t1.map byteHex).flatten = (t2.map byteHex).flatten → t1 = t2 := by
  intro t1
  induction t1 with
  | nil =>
      intro t2 _ _ hlen _
      cases t2 with
      | nil => rfl
      | cons b t2 => simp at hlen
  | cons a t1 ih =>
      intro t2 h1 h2 hlen hj
      cases t2 with
      | nil => simp at hlen
      | cons b t2 =>
          simp only [List.map_cons, List.flatten_cons, byteHex, List.cons_append,
            List.nil_append, List.cons.injEq] at hj
          have hab : a = b := by
            apply byteHex_inj a b (h1 a (List.mem_cons_self _ _))
              (h2 b (List.mem_cons_self _ _))
            simp only [byteHex, List.cons.injEq, and_true]
            exact ⟨hj.1, hj.2.1⟩
          have htail : t1 = t2 := by
            apply ih t2 (fun x hx => h1 x (List.mem_cons_of_mem _ hx))
              (fun x hx => h2 x (List.mem_cons_of_mem _ hx))
            · simpa using hlen
            · exact hj.2.2
          rw [hab, htail]

theorem data_append (s t : String) : (s ++ t).data = s.data ++ t.data := rfl

theorem generate_object_key_data (token : List Nat) (filename : String) :
    (generate_object_key token filename).data =
      (token.map byteHex).flatten ++ '-' :: filename.data := by
  simp [generate_object_key, token_hex, data_append]

/-- The observable steps of `put_object` / `delete_object`, recorded in the
order the Python methods execute them. -/
inductive Event where
  | genKey (filename key : String)
  | performPut (obj : List Nat) (key : String)
  | postPut (key : String)
  | performDelete (key : String)
  | postDelete (key : String)
deriving DecidableEq, Repr

/-- Embedding of `BaseStorageBackend`, abstract over a backend state `σ` (the contents of
the remote store for a concrete backend).  The three abstract methods and the
two hooks are fields; each returns its outcome together with the updated
backend state.  The hooks default to `pass`, as in the Python base class. -/
structure Backend (σ : Type) where
  perform_put_object : List Nat → String → σ → Except StorageExc Unit × σ
  post_put_object : String → σ → Except StorageExc Unit × σ :=
    fun _ s => (Except.ok (), s)
  perform_delete_object : String → σ → Except StorageExc Unit × σ :=
    fun _ s => (Except.ok (), s)
  post_delete_object : String → σ → Except StorageExc Unit × σ :=
    fun _ s => (Except.ok (), s)
  get_object : String → σ → Except StorageExc (List Nat)

/-- Embedding of `BaseStorageBackend.put_object`:
```
key = self.generate_object_key(filename)
await self.perform_put_object(obj, key)
await self.post_put_object(key)
```
The method body has no `return`, so a successful call returns Python's
`None`, modelled by `()`.  The result also carries the final backend state
and the trace of steps executed, in order.  An exception aborts the method at
the raising step; later steps do not run and do not appear in the trace. -/
def put_object {σ : Type} (B : Backend σ) (obj : List Nat) (filename : String)
    (token : List Nat) (s : σ) : Except StorageExc Unit × σ × List Event :=
  let key := generate_object_key token filename
  match B.perform_put_object obj key s with
  | (Except.error e, s1) =>
      (Except.error e, s1, [Event.genKey filename key, Event.performPut obj key])
  | (Except.ok _, s1) =>
      match B.post_put_object key s1 with
      | (Except.error e, s2) =>
          (Except.error e, s2,
            [Event.genKey filename key, Event.performPut obj key, Event.postPut key])
      | (Except.ok _, s2) =>
          (Except.ok (), s2,
            [Event.genKey filename key, Event.performPut obj key, Event.postPut key])

/-- Embedding of `BaseStorageBackend.delete_object`:
`await self.perform_delete_object(key)` then
`await self.post_delete_object(key)`; returns `None` on success. -/
def delete_object {σ : Type} (B : Backend σ) (key : String) (s : σ) :
    Except StorageExc Unit × σ × List Event :=
  match B.perform_delete_object key s with
  | (Except.error e, s1) => (Except.error e, s1, [Event.performDelete key])
  | (Except.ok _, s1) =>
      match B.post_delete_object key s1 with
      | (Except.error e, s2) =>
          (Except.error e, s2, [Event.performDelete key, Event.postDelete key])
      | (Except.ok _, s2) =>
          (Except.ok (), s2, [Event.performDelete key, Event.postDelete key])

/-- How one `client.get_object` call ends: success with the response body,
the client's `NoSuchKey` error, another error of the client's `ClientError`
class (with its message), or an exception outside the `ClientError` class
(e.g. a low-level network failure), with its message. -/
inductive GetOutcome where
  | ok (body : List Nat)
  | noSuchKey
  | clientError (msg : String)
  | exc (msg : String)
deriving DecidableEq, Repr

/-- How one `client.put_object` / `client.delete_object` call ends. -/
inductive CallOutcome where
  | ok
  | clientError (msg : String)
  | exc (msg : String)
deriving DecidableEq, Repr

/-- The exact f-string of `S3StorageBackend._get_object_sync`. -/
def getErrorMessage (key e : String) : String :=
  "Error while getting object (key: " ++ key ++ "). Error: " ++ e

/-- The exact f-string of `S3StorageBackend.perform_put_object`. -/
def putErrorMessage (key e : String) : String :=
  "Error while putting object (key: " ++ key ++ "). Error: " ++ e

/-- The exact f-string of `S3StorageBackend.perform_delete_object`. -/
def deleteErrorMessage (key e : String) : String :=
  "Error while deleting object (key: " ++ key ++ "). Error: " ++ e

/-- The boto3 client held by the backend, opaque except for the construction
arguments it was created from. -/
structure S3Client where
  connection_kwargs : List (String × String)
deriving DecidableEq, Repr

/-- Embedding of `S3StorageBackend`: its two instance fields. -/
structure S3StorageBackend where
  client : S3Client
  bucket_name : String
deriving DecidableEq, Repr

/-- Embedding of `S3StorageBackend.__init__`: `self.client = boto3.client("s3",
**connection_kwargs)` and `self.bucket_name = bucket_name`. -/
def S3StorageBackend.mkBackend (connection_kwargs : List (String × String))
    (bucket_name : String) : S3StorageBackend :=
  { client := { connection_kwargs := connection_kwargs },
    bucket_name := bucket_name }

/-- Embedding of `S3StorageBackend._get_object_sync`: calls `client.get_object` (the call's
ending is the explicit `outcome`); `NoSuchKey` is re-raised as
`FileNotFoundError`, any other `ClientError` as `StorageError` with the
f-string message, any other exception propagates; on success the full body is
read and returned.  Returns `self` unchanged (the method assigns no field). -/
def S3StorageBackend.getObjectSync (self : S3StorageBackend) (key : String)
    (outcome : GetOutcome) : Except StorageExc (List Nat) × S3StorageBackend :=
  match outcome with
  | GetOutcome.ok body => (Except.ok body, self)
  | GetOutcome.noSuchKey => (Except.error StorageExc.notFound, self)
  | GetOutcome.clientError e =>
      (Except.error (StorageExc.storageError (getErrorMessage key e)), self)
  | GetOutcome.exc e => (Except.error (StorageExc.otherExc e), self)

/-- Embedding of `S3StorageBackend.get_object`: `await asyncio.to_thread(self._get_object_sync,
key=key)` — runs `_get_object_sync` and returns its result. -/
def S3StorageBackend.get_object (self : S3StorageBackend) (key : String)
    (outcome : GetOutcome) : Except StorageExc (List Nat) × S3StorageBackend :=
  self.getObjectSync key outcome

/-- Embedding of `S3StorageBackend.perform_put_object`: `client.put_object` in a thread;
`ClientError` is re-raised as `StorageError` with the f-string message, any
other exception propagates.  Returns `self` unchanged. -/
def S3StorageBackend.perform_put_object (self : S3StorageBackend)
    (obj : List Nat) (key : String) (outcome : CallOutcome) :
    Except StorageExc Unit × S3StorageBackend :=
  match outcome with
  | CallOutcome.ok => (Except.ok (), self)
  | CallOutcome.clientError e =>
      (Except.error (StorageExc.storageError (putErrorMessage key e)), self)
  | CallOutcome.exc e => (Except.error (StorageExc.otherExc e), self)

/-- Embedding of `S3StorageBackend.perform_delete_object`: `client.delete_object` in a
thread; `ClientError` is re-raised as `StorageError` with the f-string
message, any other exception propagates.  Returns `self` unchanged. -/
def S3StorageBackend.perform_delete_object (self : S3StorageBackend)
    (key : String) (outcome : CallOutcome) :
    Except StorageExc Unit × S3StorageBackend :=
  match outcome with
  | CallOutcome.ok => (Except.ok (), self)
  | CallOutcome.clientError e =>
      (Except.error (StorageExc.storageError (deleteErrorMessage key e)), self)
  | CallOutcome.exc e => (Except.error (StorageExc.otherExc e), self)

/-- Modelled from the spec: the contents of the remote S3 bucket (the
external collaborator, out of scope of the repository) — a finite map from
keys to stored payloads. -/
abbrev S3Store := List (String × List Nat)

/-- Lookup of a key in the bucket contents. -/
def storeLookup : S3Store → String → Option (List Nat)
  | [], _ => none
  | (k, b) :: rest, key => if k = key then some b else storeLookup rest key

/-- Storing a payload under a key (later entries shadow earlier ones). -/
def storeInsert (st : S3Store) (key : String) (obj : List Nat) : S3Store :=
  (key, obj) :: st

/-- Removing every entry for a key. -/
def storeErase : S3Store → String → S3Store
  | [], _ => []
  | (k, b) :: rest, key =>
      if k = key then storeErase rest key else (k, b) :: storeErase rest key

/-- Modelled from the spec: how a healthy S3 service answers
`client.get_object` — the stored body when the key exists, the `NoSuchKey`
client error when it does not. -/
def s3ServiceGet (st : S3Store) (key : String) : GetOutcome :=
  match storeLookup st key with
  | some body => GetOutcome.ok body
  | none => GetOutcome.noSuchKey

/-- Modelled from the spec: a healthy S3 service accepts `client.put_object`
and stores the full payload under the key. -/
def s3ServicePut (st : S3Store) (key : String) (obj : List Nat) :
    CallOutcome × S3Store :=
  (CallOutcome.ok, storeInsert st key obj)

/-- Modelled from the spec: S3 reports delete-of-nonexistent-key as success
(idempotent delete), so `client.delete_object` succeeds whether or not the
key exists. -/
def s3ServiceDelete (st : S3Store) (key : String) : CallOutcome × S3Store :=
  (CallOutcome.ok, storeErase st key)

/-- The `S3StorageBackend` instance `self`, as a `BaseStorageBackend` over the
bucket contents, with each client call answered by the healthy S3 service
model.  The hooks keep the base class defaults (`pass`). -/
def s3Backend (self : S3StorageBackend) : Backend S3Store where
  perform_put_object := fun obj key st =>
    let r := s3ServicePut st key obj
    ((self.perform_put_object obj key r.1).1, r.2)
  perform_delete_object := fun key st =>
    let r := s3ServiceDelete st key
    ((self.perform_delete_object key r.1).1, r.2)
  get_object := fun key st => (self.get_object key (s3ServiceGet st key)).1

/-- The same backend with `post_put_object` overridden by a stub that raises
`hookErr`, for exercising the partial-failure gap of `put_object`. -/
def s3BackendFailingPostPut (self : S3StorageBackend) (hookErr : StorageExc) :
    Backend S3Store :=
  { s3Backend self with post_put_object := fun _ st => (Except.error hookErr, st) }

/-- The same backend with the `client.delete_object` call ending in the given
outcome instead of the healthy service's answer (fault injection for the
delete path); the bucket contents are left as they were. -/
def s3BackendDeleteOutcome (self : S3StorageBackend) (doc : CallOutcome) :
    Backend S3Store :=
  { s3Backend self with
    perform_delete_object := fun key st =>
      ((self.perform_delete_object key doc).1, st) }

theorem storeLookup_insert (st : S3Store) (key : String) (obj : List Nat) :
    storeLookup (storeInsert st key obj) key = some obj := by
  simp [storeInsert, storeLookup]

/-- Sample 16-byte random token. -/
def sampleTokenA : List Nat :=
  [0, 17, 34, 51, 68, 85, 102, 119, 136, 153, 170, 187, 204, 221, 238, 255]

/-- A second, distinct 16-byte random token. -/
def sampleTokenB : List Nat :=
  [1, 2, 3, 4, 5, 6, 7, 8, 9, 10, 11, 12, 13, 14, 15, 16]

/-- C6: for every filename and every 16-byte random draw,
`generate_object_key(filename)` is exactly 32 lowercase hexadecimal
characters, then a single `'-'`, then the original filename unmodified. -/
theorem generate_object_key_format (token : List Nat) (filename : String)
    (hlen : token.length = 16) (hby : ∀ b ∈ token, b < 256) :
    (generate_object_key token filename).data =
      (token.map byteHex).flatten ++ '-' :: filename.data ∧
    ((token.map byteHex).flatten).length = 32 ∧
    ((token.map byteHex).flatten).all isLowerHexChar = true := by
  refine ⟨generate_object_key_data token filename, ?_, ?_⟩
  · rw [flatten_byteHex_length, hlen]
  · rw [List.all_eq_true]
    exact flatten_byteHex_lower token hby

/-- C6 witness: the format property at a concrete token and the filename
`"photo.jpg"` of the spec's pattern `^[0-9a-f]\x7b32\x7d-photo\.jpg$`. -/
theorem generate_object_key_format_witness :
    (generate_object_key sampleTokenA "photo.jpg").data =
      (sampleTokenA.map byteHex).flatten ++ '-' :: "photo.jpg".data ∧
    ((sampleTokenA.map byteHex).flatten).length = 32 ∧
    ((sampleTokenA.map byteHex).flatten).all isLowerHexChar = true :=
  generate_object_key_format sampleTokenA "photo.jpg" (by decide) (by decide)

/-- C7: two calls of `generate_object_key` on the same filename whose random
16-byte tokens differ return different keys, and each key carries the
original filename unmodified after the `'-'`. -/
theorem generate_object_key_unique (t1 t2 : List Nat) (filename : String)
    (h1 : t1.length = 16) (h2 : t2.length = 16)
    (hb1 : ∀ b ∈ t1, b < 256) (hb2 : ∀ b ∈ t2, b < 256)
    (hne : t1 ≠ t2) :
    generate_object_key t1 filename ≠ generate_object_key t2 filename ∧
    (generate_object_key t1 filename).data =
      (t1.map byteHex).flatten ++ '-' :: filename.data ∧
    (generate_object_key t2 filename).data =
      (t2.map byteHex).flatten ++ '-' :: filename.data := by
  refine ⟨?_, generate_object_key_data t1 filename,
    generate_object_key_data t2 filename⟩
  intro heq
  apply hne
  have hd : (generate_object_key t1 filename).data =
      (generate_object_key t2 filename).data := by rw [heq]
  rw [generate_object_key_data, generate_object_key_data] at hd
  have hlen : ((t1.map byteHex).flatten).length =
      ((t2.map byteHex).flatten).length := by
    rw [flatten_byteHex_length, flatten_byteHex_length, h1, h2]
  exact flatten_byteHex_inj t1 t2 hb1 hb2 (by rw [h1, h2])
    (List.append_inj hd hlen).1

/-- C7 witness: two concrete distinct tokens give distinct keys for
`"a.png"`. -/
theorem generate_object_key_unique_witness :
    generate_object_key sampleTokenA "a.png" ≠
      generate_object_key sampleTokenB "a.png" ∧
    (generate_object_key sampleTokenA "a.png").data =
      (sampleTokenA.map byteHex).flatten ++ '-' :: "a.png".data ∧
    (generate_object_key sampleTokenB "a.png").data =
      (sampleTokenB.map byteHex).flatten ++ '-' :: "a.png".data :=
  generate_object_key_unique sampleTokenA sampleTokenB "a.png"
    (by decide) (by decide) (by decide) (by decide) (by decide)

/-- C3: `put_object` runs exactly key generation, then the full
`perform_put_object` transfer, then the `post_put_object` hook (the hook only
after the transfer step succeeded, never before); `delete_object` runs
exactly `perform_delete_object` to completion, then `post_delete_object`.
The traces record every step executed, in order. -/
theorem hook_invocation_order {σ : Type} (B : Backend σ) (obj : List Nat)
    (filename : String) (token : List Nat) (key : String) (s t : σ) :
    (put_object B obj filename token s).2.2 =
      [Event.genKey filename (generate_object_key token filename),
       Event.performPut obj (generate_object_key token filename)] ++
      (if resultOk (B.perform_put_object obj
            (generate_object_key token filename) s).1
       then [Event.postPut (generate_object_key token filename)] else []) ∧
    (delete_object B key t).2.2 =
      [Event.performDelete key] ++
      (if resultOk (B.perform_delete_object key t).1
       then [Event.postDelete key] else []) := by
  constructor
  · rcases hp : B.perform_put_object obj (generate_object_key token filename) s
      with ⟨r, s1⟩
    cases r with
    | error e => simp [put_object, hp, resultOk]
    | ok u =>
        rcases hq : B.post_put_object (generate_object_key token filename) s1
          with ⟨r2, s2⟩
        cases r2 <;> simp [put_object, hp, hq, resultOk]
  · rcases hp : B.perform_delete_object key t with ⟨r, s1⟩
    cases r with
    | error e => simp [delete_object, hp, resultOk]
    | ok u =>
        rcases hq : B.post_delete_object key s1 with ⟨r2, s2⟩
        cases r2 <;> simp [delete_object, hp, hq, resultOk]

/-- C4: when the `post_put_object` hook raises after the transfer step
succeeded, `put_object` propagates the hook's error to the caller, yet the
object stays stored under the generated key and is retrievable through
`get_object` on the resulting store — nothing is rolled back. -/
theorem post_put_failure_not_rolled_back (self : S3StorageBackend)
    (hookErr : StorageExc) (obj : List Nat) (filename : String)
    (token : List Nat) (st : S3Store) :
    (put_object (s3BackendFailingPostPut self hookErr) obj filename token st).1
      = Except.error hookErr ∧
    storeLookup
      (put_object (s3BackendFailingPostPut self hookErr)
        obj filename token st).2.1
      (generate_object_key token filename) = some obj ∧
    (s3Backend self).get_object (generate_object_key token filename)
      (put_object (s3BackendFailingPostPut self hookErr)
        obj filename token st).2.1
      = Except.ok obj := by
  refine ⟨?_, ?_, ?_⟩ <;>
    simp [put_object, s3BackendFailingPostPut, s3Backend, s3ServicePut,
      s3ServiceGet, S3StorageBackend.perform_put_object,
      S3StorageBackend.get_object, S3StorageBackend.getObjectSync,
      storeLookup_insert]

/-- Holds when an `Except` result is a raised `StorageError`. -/
def storageErrorResult {α : Type} : Except StorageExc α → Bool
  | Except.error (StorageExc.storageError _) => true
  | _ => false

/-- C1 counterexample: two successful `put_object` calls whose random tokens
— hence generated keys — differ return the very same value, Python's `None`
(modelled by `()`), so the returned value does not carry the generated key
and the caller does not receive the handle. -/
theorem put_object_result_carries_no_key :
    (put_object (s3Backend (S3StorageBackend.mkBackend [] "images"))
        [1, 2, 3] "a.png" sampleTokenA []).1 = Except.ok () ∧
    (put_object (s3Backend (S3StorageBackend.mkBackend [] "images"))
        [1, 2, 3] "a.png" sampleTokenB []).1 = Except.ok () ∧
    generate_object_key sampleTokenA "a.png" ≠
      generate_object_key sampleTokenB "a.png" :=
  ⟨rfl, rfl, by decide⟩

/-- C1 amended: a successful `put_object` stores the blob under the key
generated by `generate_object_key(filename)`, but returns `None` (the method
body has no `return` and is annotated `-> None`); the key is not part of the
returned value. -/
theorem put_object_stores_under_generated_key (self : S3StorageBackend)
    (obj : List Nat) (filename : String) (token : List Nat) (st : S3Store) :
    (put_object (s3Backend self) obj filename token st).1 = Except.ok () ∧
    storeLookup (put_object (s3Backend self) obj filename token st).2.1
      (generate_object_key token filename) = some obj := by
  constructor <;>
    simp [put_object, s3Backend, s3ServicePut,
      S3StorageBackend.perform_put_object, storeLookup_insert]

/-- C2 counterexample: a network-level failure raised by the client outside
its `ClientError` class is not translated to `StorageError` (nor to
`NotFound`) by `get_object`; it propagates unchanged. -/
theorem get_object_network_failure_counterexample :
    ((S3StorageBackend.mkBackend [] "images").get_object "k1"
        (GetOutcome.exc "connection timed out")).1
      = Except.error (StorageExc.otherExc "connection timed out") ∧
    isStorageError (StorageExc.otherExc "connection timed out") = false ∧
    StorageExc.otherExc "connection timed out" ≠ StorageExc.notFound :=
  ⟨rfl, rfl, by decide⟩

/-- C2 amended: `get_object` raises `NotFound` exactly when the client
reports `NoSuchKey`; every other error of the client's `ClientError` class
is raised as `StorageError` with the key and client message embedded;
exceptions outside the `ClientError` class propagate unchanged; on success
the full payload is returned. -/
theorem get_object_error_mapping (self : S3StorageBackend) (key e : String)
    (body : List Nat) (oc : GetOutcome) :
    ((self.get_object key (GetOutcome.ok body)).1 = Except.ok body) ∧
    ((self.get_object key GetOutcome.noSuchKey).1 =
        Except.error StorageExc.notFound) ∧
    ((self.get_object key (GetOutcome.clientError e)).1 =
        Except.error (StorageExc.storageError (getErrorMessage key e))) ∧
    ((self.get_object key (GetOutcome.exc e)).1 =
        Except.error (StorageExc.otherExc e)) ∧
    (notFoundResult (self.get_object key oc).1 = true ↔
        oc = GetOutcome.noSuchKey) := by
  refine ⟨rfl, rfl, rfl, rfl, ?_⟩
  cases oc <;>
    simp [S3StorageBackend.get_object, S3StorageBackend.getObjectSync,
      notFoundResult]

/-- C5 counterexample: a failure outside the client's `ClientError` class
during `delete_object` surfaces as itself, not as `StorageError`. -/
theorem delete_object_exc_counterexample :
    (delete_object
        (s3BackendDeleteOutcome (S3StorageBackend.mkBackend [] "images")
          (CallOutcome.exc "connection reset")) "k2" []).1
      = Except.error (StorageExc.otherExc "connection reset") ∧
    isStorageError (StorageExc.otherExc "connection reset") = false :=
  ⟨rfl, rfl⟩

/-- C5 amended: `delete_object` on the S3 backend never raises `NotFound`
whatever the client call's outcome; deleting a key with no object succeeds
and a second delete of the same key succeeds again (idempotent delete);
errors of the client's `ClientError` class surface as `StorageError`, while
exceptions outside that class propagate unchanged. -/
theorem delete_object_idempotent_never_notfound (self : S3StorageBackend)
    (key e : String) (st : S3Store) (doc : CallOutcome) :
    ((delete_object (s3Backend self) key st).1 = Except.ok ()) ∧
    ((delete_object (s3Backend self) key
        (delete_object (s3Backend self) key st).2.1).1 = Except.ok ()) ∧
    ((self.perform_delete_object key (CallOutcome.clientError e)).1 =
        Except.error (StorageExc.storageError (deleteErrorMessage key e))) ∧
    ((self.perform_delete_object key (CallOutcome.exc e)).1 =
        Except.error (StorageExc.otherExc e)) ∧
    (notFoundResult (delete_object (s3BackendDeleteOutcome self doc)
        key st).1 = false) ∧
    (notFoundResult (self.perform_delete_object key doc).1 = false) := by
  refine ⟨?_, ?_, rfl, rfl, ?_, ?_⟩
  · simp [delete_object, s3Backend, s3ServiceDelete,
      S3StorageBackend.perform_delete_object]
  · simp [delete_object, s3Backend, s3ServiceDelete,
      S3StorageBackend.perform_delete_object]
  · cases doc <;>
      simp [delete_object, s3BackendDeleteOutcome, s3Backend,
        S3StorageBackend.perform_delete_object, notFoundResult]
  · cases doc <;> rfl

/-- C8: on the S3 backend the only `StorageError` raised by get, put or
delete is the one built from an error of the client's `ClientError` class,
and its message embeds the operation's key and the underlying client error
message as literal substrings of the f-string. -/
theorem storage_error_carries_key_and_cause (self : S3StorageBackend)
    (key e : String) (obj : List Nat) (goc : GetOutcome)
    (poc doc : CallOutcome) :
    ((self.get_object key (GetOutcome.clientError e)).1 =
        Except.error (StorageExc.storageError (getErrorMessage key e))) ∧
    ((self.perform_put_object obj key (CallOutcome.clientError e)).1 =
        Except.error (StorageExc.storageError (putErrorMessage key e))) ∧
    ((self.perform_delete_object key (CallOutcome.clientError e)).1 =
        Except.error (StorageExc.storageError (deleteErrorMessage key e))) ∧
    ((getErrorMessage key e).data =
        "Error while getting object (key: ".data ++ key.data ++
          "). Error: ".data ++ e.data) ∧
    ((putErrorMessage key e).data =
        "Error while putting object (key: ".data ++ key.data ++
          "). Error: ".data ++ e.data) ∧
    ((deleteErrorMessage key e).data =
        "Error while deleting object (key: ".data ++ key.data ++
          "). Error: ".data ++ e.data) ∧
    (storageErrorResult (self.get_object key goc).1 = true ↔
        ∃ m, goc = GetOutcome.clientError m) ∧
    (storageErrorResult (self.perform_put_object obj key poc).1 = true ↔
        ∃ m, poc = CallOutcome.clientError m) ∧
    (storageErrorResult (self.perform_delete_object key doc).1 = true ↔
        ∃ m, doc = CallOutcome.clientError m) := by
  refine ⟨rfl, rfl, rfl, rfl, rfl, rfl, ?_, ?_, ?_⟩
  · cases goc <;>
      simp [S3StorageBackend.get_object, S3StorageBackend.getObjectSync,
        storageErrorResult]
  · cases poc <;>
      simp [S3StorageBackend.perform_put_object, storageErrorResult]
  · cases doc <;>
      simp [S3StorageBackend.perform_delete_object, storageErrorResult]

/-- C9: an exception raised by the client that is not of its `ClientError`
class (nor, for get, its `NoSuchKey` class) reaches the caller unchanged from
`get_object`, `_get_object_sync`, `perform_put_object` and
`perform_delete_object`: it is neither a `StorageError` nor a
`FileNotFoundError`. -/
theorem non_client_error_propagates (self : S3StorageBackend)
    (key e : String) (obj : List Nat) :
    ((self.get_object key (GetOutcome.exc e)).1 =
        Except.error (StorageExc.otherExc e)) ∧
    ((self.getObjectSync key (GetOutcome.exc e)).1 =
        Except.error (StorageExc.otherExc e)) ∧
    ((self.perform_put_object obj key (CallOutcome.exc e)).1 =
        Except.error (StorageExc.otherExc e)) ∧
    ((self.perform_delete_object key (CallOutcome.exc e)).1 =
        Except.error (StorageExc.otherExc e)) ∧
    (isStorageError (StorageExc.otherExc e) = false) ∧
    (StorageExc.otherExc e ≠ StorageExc.notFound) := by
  refine ⟨rfl, rfl, rfl, rfl, rfl, by simp⟩

/-- C10: `__init__` assigns the client (built from the construction
arguments) and the bucket name, and every operation of the S3 backend
returns `self` with both fields unchanged — no method mutates the
instance. -/
theorem backend_fields_immutable (connection_kwargs : List (String × String))
    (bucket_name : String) (self : S3StorageBackend) (key : String)
    (obj : List Nat) (goc : GetOutcome) (poc doc : CallOutcome) :
    ((S3StorageBackend.mkBackend connection_kwargs bucket_name).client =
        { connection_kwargs := connection_kwargs }) ∧
    ((S3StorageBackend.mkBackend connection_kwargs bucket_name).bucket_name =
        bucket_name) ∧
    ((self.get_object key goc).2 = self) ∧
    ((self.getObjectSync key goc).2 = self) ∧
    ((self.perform_put_object obj key poc).2 = self) ∧
    ((self.perform_delete_object key doc).2 = self) := by
  refine ⟨rfl, rfl, ?_, ?_, ?_, ?_⟩
  · cases goc <;> rfl
  · cases goc <;> rfl
  · cases poc <;> rfl
  · cases doc <;> rfl

end ImageHandlerCommons
